import Mathlib

/-
  Verification of the FRC 2015 protocol module of LibDS-Legacy
  (src/unnamed/part_000, the file registered by DS_GetProtocolFRC_2015).

  The C module is embedded shallowly:
  - the configuration facade (CFG_Get*/CFG_Set*) and the static counters
    and latches of the module are gathered in one state record St;
  - packets are lists of byte values (ℕ, each < 256 where the code writes
    a uint8_t);
  - the double typed robot voltage is modelled as a rational number; the
    C casts (int)/(uint8_t) on nonnegative doubles truncate toward zero,
    which on the nonnegative domain equals Int.floor;
  - parsers receive Option (List ℕ): none models a NULL data pointer.
    The C parsers read fixed offsets without any length check; a read
    past the end of a short payload is undefined behaviour in C and is
    modelled here by List.getD with default 0.  No theorem below about
    well formed packets depends on that default.
-/

namespace LibDS2015

/- Protocol bytes (part_000 lines 38-67). -/

def cTest : ℕ := 0x01
def cEnabled : ℕ := 0x04
def cAutonomous : ℕ := 0x02
def cTeleoperated : ℕ := 0x00
def cFMS_Attached : ℕ := 0x08
def cEmergencyStop : ℕ := 0x80
def cRequestReboot : ℕ := 0x08
def cRequestNormal : ℕ := 0x80
def cRequestUnconnected : ℕ := 0x00
def cRequestRestartCode : ℕ := 0x04
def cFMS_RadioPing : ℕ := 0x10
def cFMS_RobotPing : ℕ := 0x08
def cFMS_RobotComms : ℕ := 0x20
def cFMS_DS_Version : ℕ := 0x00
def cTagDate : ℕ := 0x0f
def cTagGeneral : ℕ := 0x01
def cTagJoystick : ℕ := 0x0c
def cTagTimezone : ℕ := 0x10
def cRed1 : ℕ := 0x00
def cRed2 : ℕ := 0x01
def cRed3 : ℕ := 0x02
def cBlue1 : ℕ := 0x03
def cBlue2 : ℕ := 0x04
def cBlue3 : ℕ := 0x05
def cRTagCANInfo : ℕ := 0x0e
def cRTagCPUInfo : ℕ := 0x05
def cRTagRAMInfo : ℕ := 0x06
def cRTagDiskInfo : ℕ := 0x04
def cRequestTime : ℕ := 0x01
def cRobotHasCode : ℕ := 0x20

/-- Control mode of the DS, the three values the switch statements of
part_000 distinguish (DS_CONTROL_TEST, DS_CONTROL_AUTONOMOUS,
DS_CONTROL_TELEOPERATED). -/
inductive ControlMode
  | test
  | autonomous
  | teleoperated
deriving DecidableEq

/-- Alliance of the team station. -/
inductive Alliance
  | red
  | blue
deriving DecidableEq

/-- Position of the team station. -/
inductive Position
  | p1
  | p2
  | p3
deriving DecidableEq

/-- One attached joystick as seen through the DS_GetJoystick* accessors:
axis values (doubles in [-1, 1], modelled as rationals), button states and
hat values (nonnegative 16 bit readings). -/
structure Joystick where
  axes : List ℚ
  buttons : List Bool
  hats : List ℕ

/-- The fields of struct tm that add_timezone_data reads, plus the length
of the timezone string.  The C code calls localtime on an uninitialized
time_t (part_000 lines 288-289), so the concrete values are arbitrary;
they are simply part of the state here. -/
structure Tm where
  sec : ℕ
  minute : ℕ
  hour : ℕ
  yday : ℕ
  mon : ℕ
  year : ℕ
  tzLen : ℕ

/-- The whole mutable state the module touches: the configuration facade
(CFG_Get*/CFG_Set*), the static counters and latches of part_000 lines
72-80, the attached joysticks and the wall clock data. -/
structure St where
  mode : ControlMode
  enabled : Bool
  estop : Bool
  fms_comms : Bool
  radio_comms : Bool
  robot_comms : Bool
  team : ℕ
  voltage : ℚ
  alliance : Alliance
  position : Position
  robot_code : Bool
  cpu : ℕ
  ram : ℕ
  disk : ℕ
  can : ℕ
  reboot : Bool
  restart_code : Bool
  send_time_data : Bool
  sent_fms_packets : ℕ
  sent_robot_packets : ℕ
  joysticks : List Joystick
  tm : Tm

/-- Truncation toward zero of a rational, the behaviour of the C casts
(int) and (uint8_t) applied to an in range double. -/
def ctrunc (q : ℚ) : ℤ :=
  if 0 ≤ q then ⌊q⌋ else ⌈q⌉

/-- Wraparound conversion of an integer to a byte.  C conversion of an
out of range value to uint8_t is defined as reduction modulo 256 for
integer sources; the theorems below only use in range values. -/
def uint8cast (z : ℤ) : ℕ :=
  (z % 256).toNat

/-- decode_voltage (part_000 lines 91-94): upper + lower / 0xff.  Note
the divisor in the source is 0xff = 255, not 256. -/
def decode_voltage (upper lower : ℕ) : ℚ :=
  (upper : ℚ) + (lower : ℚ) / 0xff

/-- encode_voltage (part_000 lines 99-105).  The source line 103 reads
lower[0] = (uint8_t) (voltage - (int) voltage) * 100: the cast binds to
the difference alone, so the fractional part (in [0, 1) for nonnegative
voltage) is truncated to 0 before the multiplication by 100.  For
voltage in [0, 256) the (int)/(uint8_t) truncations equal Int.floor. -/
def encode_voltage (v : ℚ) : ℕ × ℕ :=
  (⌊v⌋.toNat % 256, ((⌊v - (⌊v⌋ : ℚ)⌋).toNat * 100) % 256)

/-- fms_control_code (part_000 lines 119-157). -/
def fms_control_code (s : St) : ℕ :=
  let code : ℕ :=
    match s.mode with
    | .test => cTest
    | .autonomous => cAutonomous
    | .teleoperated => cTeleoperated
  let code := if s.estop then code ||| cEmergencyStop else code
  let code := if s.enabled then code ||| cEnabled else code
  let code := if s.radio_comms then code ||| cFMS_RadioPing else code
  let code := if s.robot_comms then code ||| cFMS_RobotComms ||| cFMS_RobotPing else code
  code

/-- get_control_code (part_000 lines 166-198). -/
def get_control_code (s : St) : ℕ :=
  let code : ℕ :=
    match s.mode with
    | .test => cTest
    | .autonomous => cAutonomous
    | .teleoperated => cTeleoperated
  let code := if s.fms_comms then code ||| cFMS_Attached else code
  let code := if s.estop then code ||| cEmergencyStop else code
  let code := if s.enabled then code ||| cEnabled else code
  code

/-- get_request_code (part_000 lines 206-223). -/
def get_request_code (s : St) : ℕ :=
  if s.robot_comms then
    if s.reboot then cRequestReboot
    else if s.restart_code then cRequestRestartCode
    else cRequestNormal
  else cRequestUnconnected

/-- get_station_code (part_000 lines 230-257). -/
def get_station_code (s : St) : ℕ :=
  if s.position = .p1 then
    if s.alliance = .red then cRed1 else cBlue1
  else if s.position = .p2 then
    if s.alliance = .red then cRed2 else cBlue2
  else if s.position = .p3 then
    if s.alliance = .red then cRed3 else cBlue3
  else cRed1

/-- get_joystick_size (part_000 lines 264-272): 2 (header) + 3 (buttons)
+ (axes + 1) + (2 * hats + 1), returned as a uint8_t. -/
def get_joystick_size (j : Joystick) : ℕ :=
  (2 + 3 + (j.axes.length + 1) + (j.hats.length * 2 + 1)) % 256

/-- Button bitfield of add_joystick_data (part_000 lines 360-362).  The
accumulator button_flags is a uint8_t, so the sum wraps modulo 256 and
the high byte extracted later is always 0. -/
def button_flags (bs : List Bool) : ℕ :=
  ((List.range bs.length).foldl
    (fun acc b => acc + (if bs.getD b false then 2 ^ b else 0)) 0) % 256

/-- Byte list written for one joystick by the loop body of
add_joystick_data (part_000 lines 348-380), relative to the block start.
The loop writes, for a joystick with A axes and H hats:
  pos+0 length byte (get_joystick_size), pos+1 tag 0x0c,
  pos+2 .. pos+1+A the axis bytes,
  pos+2+A untouched (after the axis loop the buttons are stored at
  pos+1 .. pos+3 relative to the advanced cursor, leaving the byte at
  the cursor itself with its previous value, 0 from calloc),
  pos+3+A button count, pos+4+A flags high byte, pos+5+A flags low byte,
  pos+6+A hat count, pos+7+A .. pos+6+A+2H the hat byte pairs,
and then advances the cursor by 7 + A + 2H. -/
def joystick_block (j : Joystick) : List ℕ :=
  [get_joystick_size j, cTagJoystick]
  ++ j.axes.map (fun a => uint8cast (ctrunc (a * 127)))
  ++ [0]
  ++ [j.buttons.length % 256,
      (button_flags j.buttons &&& 0xff00) >>> 8,
      button_flags j.buttons &&& 0xff]
  ++ [j.hats.length % 256]
  ++ j.hats.foldr (fun h acc => ((h &&& 0xff00) >>> 8) :: (h &&& 0xff) :: acc) []

/-- add_joystick_data (part_000 lines 332-381): the concatenation of the
per joystick blocks, in enumeration order, written from the given offset
of the datagram. -/
def add_joystick_data (js : List Joystick) : List ℕ :=
  js.foldr (fun j acc => joystick_block j ++ acc) []

/-- add_timezone_data (part_000 lines 281-325): the 12 bytes stored at
offset .. offset+11.  The timezone string copy loop at line 320 uses the
condition i > length, which is false at i = 0, so no timezone character
is ever appended; only the length byte and the tag are. -/
def add_timezone_data (t : Tm) : List ℕ :=
  [0x0b, cTagDate, 0, 0,
   t.sec % 256, t.minute % 256, t.hour % 256, t.yday % 256,
   t.mon % 256, t.year % 256,
   t.tzLen % 256, cTagTimezone]

/-- create_fms_packet (part_000 lines 480-510): the fixed 8 byte datagram
and the incremented FMS packet counter.  The counters are C ints that
start at 0 and are only incremented, hence modelled as ℕ; the byte
extractions (x & 0xff00) >> 8 and x & 0xff are kept literally. -/
def create_fms_packet (s : St) : List ℕ × St :=
  let iv := encode_voltage s.voltage
  ([(s.sent_fms_packets &&& 0xff00) >>> 8,
    s.sent_fms_packets &&& 0xff,
    cFMS_DS_Version,
    fms_control_code s,
    (s.team &&& 0xff00) >>> 8,
    s.team &&& 0xff,
    iv.1,
    iv.2],
   { s with sent_fms_packets := s.sent_fms_packets + 1 })

/-- The 6 header bytes of create_robot_packet (part_000 lines 536-546),
stored into the calloc allocated 8 byte buffer. -/
def robot_header (s : St) : List ℕ :=
  [(s.sent_robot_packets &&& 0xff00) >>> 8,
   s.sent_robot_packets &&& 0xff,
   cTagGeneral,
   get_control_code s,
   get_request_code s,
   get_station_code s]

/-- create_robot_packet (part_000 lines 532-560).  The buffer starts as 8
zero bytes (calloc); bytes 0-5 receive the header.  If the time latch is
set, add_timezone_data writes its block from offset 6; otherwise, when
more than 5 robot packets were sent, add_joystick_data writes the
joystick blocks from offset 6.  In the joystick branch the C realloc
makes the buffer 8 + total length bytes, so two bytes past the written
payload remain; they carry the calloc zeros when no joystick is attached
and are indeterminate realloc slack otherwise, modelled as 0 here.  In
the timezone branch the realloc sizing is broken in C (spec section 9:
the resulting packet is undefined past the written block); the model
keeps exactly the header plus the 12 written bytes. -/
def create_robot_packet (s : St) : List ℕ × St :=
  let pkt :=
    if s.send_time_data then
      robot_header s ++ add_timezone_data s.tm
    else if s.sent_robot_packets > 5 then
      robot_header s ++ add_joystick_data s.joysticks ++ [0, 0]
    else
      robot_header s ++ [0, 0]
  (pkt, { s with sent_robot_packets := s.sent_robot_packets + 1 })

/-- get_alliance (part_000 lines 417-423). -/
def get_alliance (b : ℕ) : Alliance :=
  if b = cBlue1 ∨ b = cBlue2 ∨ b = cBlue3 then .blue else .red

/-- get_position (part_000 lines 430-442). -/
def get_position (b : ℕ) : Position :=
  if b = cRed1 ∨ b = cBlue1 then .p1
  else if b = cRed2 ∨ b = cBlue2 then .p2
  else if b = cRed3 ∨ b = cBlue3 then .p3
  else .p1

/-- read_fms_packet (part_000 lines 570-597).  Returns 0 only for a NULL
data pointer; otherwise reads bytes 3 and 5, stores the enabled flag,
possibly the mode, the alliance and the position, and returns 1.  The
teleoperated branch tests control AND cTeleoperated with
cTeleoperated = 0x00, kept literally. -/
def read_fms_packet : Option (List ℕ) → St → ℕ × St
  | none, s => (0, s)
  | some d, s =>
    let control := d.getD 3 0
    let station := d.getD 5 0
    let s1 := { s with enabled := decide (control &&& cEnabled ≠ 0) }
    let s2 :=
      if control &&& cTeleoperated ≠ 0 then { s1 with mode := .teleoperated }
      else if control &&& cAutonomous ≠ 0 then { s1 with mode := .autonomous }
      else if control &&& cTest ≠ 0 then { s1 with mode := .test }
      else s1
    let s3 := { s2 with alliance := get_alliance station,
                        position := get_position station }
    (1, s3)

/-- read_extended (part_000 lines 386-410). -/
def read_extended (d : List ℕ) (offset : ℕ) (s : St) : St :=
  let tag := d.getD (offset + 1) 0
  if tag = cRTagCANInfo then { s with can := d.getD (offset + 10) 0 }
  else if tag = cRTagCPUInfo then { s with cpu := d.getD (offset + 3) 0 }
  else if tag = cRTagRAMInfo then { s with ram := d.getD (offset + 4) 0 }
  else if tag = cRTagDiskInfo then { s with disk := d.getD (offset + 4) 0 }
  else s

/-- Modelled from the spec: DS_SizeOf is declared in DS_Utils.h, a header
that is not part of this repository snapshot.  The spec states that the
robot parser interprets an extended block when the payload length is
greater than 9, so DS_SizeOf is taken to be the payload length. -/
def DS_SizeOf (d : List ℕ) : ℕ :=
  d.length

/-- read_robot_packet (part_000 lines 617-646).  Returns 0 only for a
NULL data pointer; otherwise stores the robot code flag, the e-stop
flag, the time request latch and the voltage, dispatches one extended
block when the payload is longer than 9 bytes, and returns 1. -/
def read_robot_packet : Option (List ℕ) → St → ℕ × St
  | none, s => (0, s)
  | some d, s =>
    let control := d.getD 3 0
    let status := d.getD 4 0
    let request := d.getD 7 0
    let s1 := { s with robot_code := decide (status &&& cRobotHasCode ≠ 0),
                       estop := decide (control &&& cEmergencyStop ≠ 0) }
    let s2 := { s1 with send_time_data := decide (request = cRequestTime) }
    let upper := d.getD 5 0
    let lower := d.getD 6 0
    let s3 := { s2 with voltage := decode_voltage upper lower }
    let s4 := if DS_SizeOf d > 9 then read_extended d 8 s3 else s3
    (1, s4)

/-- reset_robot (part_000 lines 667-672). -/
def reset_robot (s : St) : St :=
  { s with reboot := false, restart_code := false, send_time_data := false }

/-- reboot_robot (part_000 lines 677-680). -/
def reboot_robot (s : St) : St :=
  { s with reboot := true }

/-- restart_robot_code (part_000 lines 686-689). -/
def restart_robot_code (s : St) : St :=
  { s with restart_code := true }

/-- Big endian 16 bit index carried by bytes 0 and 1 of a packet. -/
def packet_index (p : List ℕ) : ℕ :=
  256 * p.getD 0 0 + p.getD 1 0

/-- A concrete baseline state: teleoperated, everything disabled or
cleared, no joysticks. -/
def st0 : St :=
  { mode := .teleoperated, enabled := false, estop := false,
    fms_comms := false, radio_comms := false, robot_comms := false,
    team := 0, voltage := 0, alliance := .red, position := .p1,
    robot_code := false, cpu := 0, ram := 0, disk := 0, can := 0,
    reboot := false, restart_code := false, send_time_data := false,
    sent_fms_packets := 0, sent_robot_packets := 0,
    joysticks := [], tm := ⟨0, 0, 0, 0, 0, 0, 0⟩ }

/-- The state of scenario 2 of the spec: team 4499, autonomous, enabled,
FMS, radio and robot communications up, voltage 12.50, counters at 0. -/
def goldenState : St :=
  { st0 with mode := .autonomous, enabled := true,
             fms_comms := true, radio_comms := true, robot_comms := true,
             team := 4499, voltage := 25 / 2 }

/-- A state whose control mode is autonomous, used to observe the mode
handling of the FMS parser. -/
def autoState : St :=
  { st0 with mode := .autonomous }

/- Helper lemmas about the C byte extractions on nonnegative values. -/

theorem lo8_eq (c : ℕ) : c &&& 0xff = c % 256 := by
  have h := Nat.and_pow_two_sub_one_eq_mod c 8
  norm_num at h
  exact h

theorem hi8_eq (c : ℕ) : (c &&& 0xff00) >>> 8 = c / 256 % 256 := by
  apply Nat.eq_of_testBit_eq
  intro i
  have h256 : (256 : ℕ) = 2 ^ 8 := by norm_num
  rw [Nat.testBit_shiftRight, Nat.testBit_and, h256, Nat.testBit_mod_two_pow,
    ← Nat.shiftRight_eq_div_pow, Nat.testBit_shiftRight]
  have hmask : Nat.testBit 0xff00 (8 + i) = decide (i < 8) := by
    rcases Nat.lt_or_ge i 8 with h | h
    · interval_cases i <;> decide
    · simp only [decide_eq_false (Nat.not_lt.mpr h)]
      apply Nat.testBit_eq_false_of_lt
      calc (0xff00 : ℕ) < 2 ^ 16 := by norm_num
        _ ≤ 2 ^ (8 + i) := Nat.pow_le_pow_right (by norm_num) (by omega)
  rw [hmask, Bool.and_comm]

theorem index_split (c : ℕ) :
    256 * ((c &&& 0xff00) >>> 8) + (c &&& 0xff) = c % 65536 := by
  rw [hi8_eq, lo8_eq]
  omega

/-- C1: voltage codec round trip.  The source does not satisfy the claim:
at voltage 12.5, encode_voltage yields (12, 0), because line 103 casts
the fractional part to uint8_t (giving 0) before multiplying by 100, and
decode_voltage (which divides by 0xff = 255, not 256) then returns 12.
The round trip error is 1/2, far above the claimed bound 1/256. -/
theorem C1_voltage_roundtrip_fails_at_12_5 :
    encode_voltage (25 / 2) = (12, 0) ∧
    decode_voltage (encode_voltage (25 / 2)).1 (encode_voltage (25 / 2)).2 = 12 ∧
    ¬ (|decode_voltage (encode_voltage (25 / 2)).1 (encode_voltage (25 / 2)).2
        - 25 / 2| ≤ 1 / 256) := by
  have h : encode_voltage (25 / 2) = (12, 0) := by
    norm_num [encode_voltage]
    decide
  refine ⟨h, ?_, ?_⟩ <;> rw [h] <;> norm_num [decode_voltage, abs_le]

/-- C2: golden FMS packet.  With counter 0, team 4499, autonomous,
enabled, FMS, radio and robot communications up and voltage 12.50, the
source emits 00 00 00 3E 11 93 0C 00: the control code is 0x3E as
claimed, but the voltage fractional byte is 0x00, not the claimed 0x80,
because of the encode_voltage cast bug. -/
theorem C2_golden_fms_packet :
    (create_fms_packet goldenState).1 = [0x00, 0x00, 0x00, 0x3E, 0x11, 0x93, 0x0C, 0x00] ∧
    (create_fms_packet goldenState).1 ≠ [0x00, 0x00, 0x00, 0x3E, 0x11, 0x93, 0x0C, 0x80] := by
  have h : (create_fms_packet goldenState).1
      = [0x00, 0x00, 0x00, 0x3E, 0x11, 0x93, 0x0C, 0x00] := by
    norm_num [create_fms_packet, goldenState, st0, fms_control_code, encode_voltage,
      cFMS_DS_Version, cAutonomous, cEnabled, cFMS_RadioPing, cFMS_RobotComms,
      cFMS_RobotPing]
    decide
  refine ⟨h, ?_⟩
  rw [h]
  decide

/-- C3: FMS parser mode update.  The claim says the mode becomes
teleoperated whenever no mode bit is set in byte 3; the source instead
leaves the mode unchanged in that case, because its teleoperated branch
tests control AND 0x00, which is always 0.  On a payload with control
byte 0 the mode stays autonomous.  The autonomous and test branches
behave as claimed. -/
theorem C3_mode_not_reset_to_teleop :
    (read_fms_packet (some [0, 0, 0, 0, 0, 0]) autoState).2.mode = .autonomous ∧
    (read_fms_packet (some [0, 0, 0, 0, 0, 0]) autoState).2.mode ≠ .teleoperated ∧
    (read_fms_packet (some [0, 0, 0, 0x02, 0, 0]) autoState).2.mode = .autonomous ∧
    (read_fms_packet (some [0, 0, 0, 0x01, 0, 0]) autoState).2.mode = .test := by
  refine ⟨rfl, by decide, rfl, rfl⟩

/- Helper lemmas for the joystick payload and the robot packet. -/

theorem hats_fold_length (hs : List ℕ) :
    (hs.foldr (fun h acc => ((h &&& 0xff00) >>> 8) :: (h &&& 0xff) :: acc) []).length
      = 2 * hs.length := by
  induction hs with
  | nil => rfl
  | cons h t ih => simp [ih]; omega

theorem joystick_block_length (j : Joystick) :
    (joystick_block j).length = 7 + j.axes.length + 2 * j.hats.length := by
  simp [joystick_block, hats_fold_length]
  omega

theorem read_extended_latch (d : List ℕ) (off : ℕ) (s : St) :
    (read_extended d off s).send_time_data = s.send_time_data := by
  unfold read_extended
  dsimp only
  split_ifs <;> rfl

theorem fms_counter_step (s : St) :
    (create_fms_packet s).2.sent_fms_packets = s.sent_fms_packets + 1 := rfl

theorem robot_counter_step (s : St) :
    (create_robot_packet s).2.sent_robot_packets = s.sent_robot_packets + 1 := rfl

theorem fms_index (s : St) :
    packet_index (create_fms_packet s).1 = s.sent_fms_packets % 65536 := by
  unfold create_fms_packet packet_index
  dsimp only
  simpa using index_split s.sent_fms_packets

theorem robot_index (s : St) :
    packet_index (create_robot_packet s).1 = s.sent_robot_packets % 65536 := by
  unfold create_robot_packet packet_index robot_header
  dsimp only
  split_ifs <;> simpa using index_split s.sent_robot_packets

/-- C4 counterexample: for a joystick with 0 axes and 0 hats the block
written by add_joystick_data is 7 bytes long, not 6 + 0 + 2·0 = 6, and
its leading length byte is 7, the full block size, not the 6 bytes that
follow it. -/
theorem C4_six_byte_formula_counterexample :
    (joystick_block ⟨[], [], []⟩).length = 7 ∧
    ¬ ((joystick_block ⟨[], [], []⟩).length = 6 + 0 + 2 * 0) ∧
    (joystick_block ⟨[], [], []⟩).getD 0 0 = 7 ∧
    ¬ ((joystick_block ⟨[], [], []⟩).getD 0 0
        = (joystick_block ⟨[], [], []⟩).length - 1) := by
  decide

/-- C4 (amended): the block appended for a joystick with A axes and H
hats occupies exactly 7 + A + 2·H bytes, the blocks are emitted in
enumeration order, and the leading length byte equals the full block
size (one more than the number of bytes that follow it in the block),
provided the size fits a uint8_t. -/
theorem C4_joystick_block_layout (j : Joystick) (js : List Joystick)
    (h : 7 + j.axes.length + 2 * j.hats.length ≤ 255) :
    add_joystick_data (j :: js) = joystick_block j ++ add_joystick_data js ∧
    (joystick_block j).length = 7 + j.axes.length + 2 * j.hats.length ∧
    (joystick_block j).getD 0 0 = (joystick_block j).length := by
  refine ⟨rfl, joystick_block_length j, ?_⟩
  rw [joystick_block_length j]
  simp [joystick_block, get_joystick_size]
  omega

theorem C4_joystick_block_layout_witness :
    add_joystick_data [⟨[], [true], [3]⟩]
      = joystick_block ⟨[], [true], [3]⟩ ++ add_joystick_data [] ∧
    (joystick_block (⟨[], [true], [3]⟩ : Joystick)).length = 7 + 0 + 2 * 1 ∧
    (joystick_block (⟨[], [true], [3]⟩ : Joystick)).getD 0 0
      = (joystick_block (⟨[], [true], [3]⟩ : Joystick)).length :=
  C4_joystick_block_layout ⟨[], [true], [3]⟩ [] (by decide)

/-- C5 counterexample: a 3 byte FMS payload and a 7 byte robot payload
are both accepted (return 1), although the claim requires failure below
6 and 8 bytes respectively; the parsers carry no length check at all. -/
theorem C5_short_payload_not_rejected :
    (read_fms_packet (some [0, 0, 0]) st0).1 = 1 ∧
    (read_robot_packet (some [0, 0, 0, 0, 0, 0, 0]) st0).1 = 1 :=
  ⟨rfl, rfl⟩

/-- C5 (amended): the parsers return failure, with the state untouched,
exactly when the data pointer is NULL; every non NULL payload, of any
length, is processed and reported as success. -/
theorem C5_null_only_failure (d : List ℕ) (s : St) :
    read_fms_packet none s = (0, s) ∧
    read_robot_packet none s = (0, s) ∧
    (read_fms_packet (some d) s).1 = 1 ∧
    (read_robot_packet (some d) s).1 = 1 :=
  ⟨rfl, rfl, rfl, rfl⟩

/-- C6: each builder call increments its peer counter by exactly 1, the
FMS packet is always 8 bytes long, bytes 0..1 carry the counter as a big
endian 16 bit value, and the indices of two consecutive emissions differ
by exactly 1 modulo 2^16, for both peers. -/
theorem C6_packet_index_invariant (s : St) :
    (create_fms_packet s).1.length = 8 ∧
    (create_fms_packet s).2.sent_fms_packets = s.sent_fms_packets + 1 ∧
    packet_index (create_fms_packet s).1 = s.sent_fms_packets % 65536 ∧
    packet_index (create_fms_packet (create_fms_packet s).2).1
      = (packet_index (create_fms_packet s).1 + 1) % 65536 ∧
    (create_robot_packet s).2.sent_robot_packets = s.sent_robot_packets + 1 ∧
    packet_index (create_robot_packet s).1 = s.sent_robot_packets % 65536 ∧
    packet_index (create_robot_packet (create_robot_packet s).2).1
      = (packet_index (create_robot_packet s).1 + 1) % 65536 := by
  refine ⟨rfl, rfl, fms_index s, ?_, rfl, robot_index s, ?_⟩
  · rw [fms_index, fms_index, fms_counter_step]
    omega
  · rw [robot_index, robot_index, robot_counter_step]
    omega

/-- C7: reset_robot clears the reboot, restart code and time latches,
and the next robot packet built after the reset carries request byte
0x80 (robot communications up) or 0x00 (down), never 0x08 or 0x04. -/
theorem C7_reset_then_request_code (s : St) :
    (reset_robot s).reboot = false ∧
    (reset_robot s).restart_code = false ∧
    (reset_robot s).send_time_data = false ∧
    ((create_robot_packet (reset_robot s)).1.getD 4 0 = 0x80 ∨
     (create_robot_packet (reset_robot s)).1.getD 4 0 = 0x00) ∧
    (create_robot_packet (reset_robot s)).1.getD 4 0 ≠ 0x08 ∧
    (create_robot_packet (reset_robot s)).1.getD 4 0 ≠ 0x04 := by
  have hb : (create_robot_packet (reset_robot s)).1.getD 4 0
      = get_request_code (reset_robot s) := by
    unfold create_robot_packet reset_robot
    dsimp only
    split_ifs <;> simp_all [robot_header]
  have hr : get_request_code (reset_robot s) = if s.robot_comms then 0x80 else 0x00 := by
    simp [get_request_code, reset_robot, cRequestNormal, cRequestUnconnected]
  rw [hb, hr]
  by_cases hc : s.robot_comms <;> simp [hc, reset_robot]

/-- C8 counterexample: with the time latch down and counter 0, the first
robot packet is the full 8 byte calloc buffer (6 header bytes plus the
two untouched zero bytes), not 6 bytes as claimed. -/
theorem C8_header_only_is_8_bytes :
    (create_robot_packet st0).1.length = 8 ∧
    ¬ ((create_robot_packet st0).1.length = 6) := by
  decide

/-- C8 (amended): when the time latch is false, each of the first 6
calls (counters 0 through 5) returns the 8 byte buffer holding only the
6 header bytes (bytes 6 and 7 stay 0, no payload); every later call
appends the joystick payload after the header; when the latch is true
the timezone payload is appended after the header instead. -/
theorem C8_payload_selection (s : St) :
    (s.send_time_data = false → s.sent_robot_packets ≤ 5 →
      (create_robot_packet s).1 = robot_header s ++ [0, 0] ∧
      (create_robot_packet s).1.length = 8) ∧
    (s.send_time_data = false → 5 < s.sent_robot_packets →
      (create_robot_packet s).1
        = robot_header s ++ add_joystick_data s.joysticks ++ [0, 0]) ∧
    (s.send_time_data = true →
      (create_robot_packet s).1 = robot_header s ++ add_timezone_data s.tm) := by
  refine ⟨fun h1 h2 => ?_, fun h1 h2 => ?_, fun h1 => ?_⟩
  · unfold create_robot_packet
    dsimp only
    simp [h1, Nat.not_lt.mpr h2, robot_header]
  · unfold create_robot_packet
    dsimp only
    simp [h1, h2]
  · unfold create_robot_packet
    dsimp only
    simp [h1]

theorem C8_payload_selection_witness :
    ((create_robot_packet st0).1 = robot_header st0 ++ [0, 0] ∧
      (create_robot_packet st0).1.length = 8) ∧
    (create_robot_packet { st0 with sent_robot_packets := 6 }).1
      = robot_header { st0 with sent_robot_packets := 6 }
        ++ add_joystick_data ({ st0 with sent_robot_packets := 6 } : St).joysticks
        ++ [0, 0] ∧
    (create_robot_packet { st0 with send_time_data := true }).1
      = robot_header { st0 with send_time_data := true }
        ++ add_timezone_data ({ st0 with send_time_data := true } : St).tm :=
  ⟨(C8_payload_selection st0).1 rfl (by decide),
   (C8_payload_selection { st0 with sent_robot_packets := 6 }).2.1 rfl (by decide),
   (C8_payload_selection { st0 with send_time_data := true }).2.2 rfl⟩

/-- C9: the robot parser recomputes the time latch on every successful
parse; after parsing a well formed payload d, the latch holds exactly
when byte 7 of d equals 0x01, whatever its previous value was. -/
theorem C9_time_latch_recomputed (d : List ℕ) (s : St) (_h : 8 ≤ d.length) :
    (read_robot_packet (some d) s).1 = 1 ∧
    ((read_robot_packet (some d) s).2.send_time_data = true ↔ d.getD 7 0 = 1) := by
  refine ⟨rfl, ?_⟩
  have hform : (read_robot_packet (some d) s).2.send_time_data
      = decide (d.getD 7 0 = cRequestTime) := by
    unfold read_robot_packet
    dsimp only
    split_ifs with hl
    · rw [read_extended_latch]
    · rfl
  rw [hform]
  simp [cRequestTime]

theorem C9_time_latch_recomputed_witness :
    (read_robot_packet (some [0, 0, 0, 0, 0, 0, 0, 5])
      { st0 with send_time_data := true }).1 = 1 ∧
    (read_robot_packet (some [0, 0, 0, 0, 0, 0, 0, 5])
      { st0 with send_time_data := true }).2.send_time_data = false := by
  have h := C9_time_latch_recomputed [0, 0, 0, 0, 0, 0, 0, 5]
    { st0 with send_time_data := true } (by decide)
  refine ⟨h.1, ?_⟩
  have h2 := h.2
  simp at h2
  simpa using h2

/-- C10: the FMS parser only writes the enabled flag, the control mode,
the alliance and the position; every other configuration field, the
latches and the packet counters are untouched for every payload. -/
theorem C10_fms_parser_touches_only_four_fields (d : List ℕ) (s : St) :
    (read_fms_packet (some d) s).2.team = s.team ∧
    (read_fms_packet (some d) s).2.voltage = s.voltage ∧
    (read_fms_packet (some d) s).2.estop = s.estop ∧
    (read_fms_packet (some d) s).2.robot_code = s.robot_code ∧
    (read_fms_packet (some d) s).2.robot_comms = s.robot_comms ∧
    (read_fms_packet (some d) s).2.radio_comms = s.radio_comms ∧
    (read_fms_packet (some d) s).2.fms_comms = s.fms_comms ∧
    (read_fms_packet (some d) s).2.cpu = s.cpu ∧
    (read_fms_packet (some d) s).2.ram = s.ram ∧
    (read_fms_packet (some d) s).2.disk = s.disk ∧
    (read_fms_packet (some d) s).2.can = s.can ∧
    (read_fms_packet (some d) s).2.reboot = s.reboot ∧
    (read_fms_packet (some d) s).2.restart_code = s.restart_code ∧
    (read_fms_packet (some d) s).2.send_time_data = s.send_time_data ∧
    (read_fms_packet (some d) s).2.sent_fms_packets = s.sent_fms_packets ∧
    (read_fms_packet (some d) s).2.sent_robot_packets = s.sent_robot_packets := by
  unfold read_fms_packet
  dsimp only
  split_ifs <;> simp

end LibDS2015
